import Mathlib

/-!
Verification of the miaw-client realtime session layer against its
natural-language specification.  The definitions below are a shallow
embedding of the TypeScript sources: `utils/error.ts` (`createError`,
`getErrorTypeFromStatus`), `utils/request.ts` (`makeRequest`),
`services/TokenService.ts`, `services/ConversationService.ts`,
`services/EventService.ts` and `MessagingInAppWeb.ts`.  JavaScript
optional object fields are embedded as `Option`; JavaScript string
falsiness (`!s`, `s || d`, `s ? a : b`) is embedded as an explicit
comparison with the empty string; machine time (`Date.now`,
`new Date(ms).toISOString()`) is threaded as an explicit parameter.
-/

namespace Miaw

/-- Abstract model of the JavaScript built-in
`new Date(epochMs).toISOString()`: an injective rendering of an epoch
millisecond count as a string.  No claim depends on the concrete format,
only on which value the code formats. -/
def dateToISOString (epochMs : Nat) : String :=
  "1970-01-01T00:00:00." ++ toString epochMs ++ "Z"

/-- JavaScript `a || b` on strings: the empty string is falsy. -/
def jsOrString (a b : String) : String :=
  if a = "" then b else a

/-! ## utils/error.ts -/

/-- Embedding of `getErrorTypeFromStatus` (utils/error.ts): maps an HTTP
status code to a coarse error category string. -/
def getErrorTypeFromStatus (status : Nat) : String :=
  if status = 400 then "invalid_request"
  else if status = 401 then "authentication_error"
  else if status = 403 then "permission_error"
  else if status = 404 then "not_found"
  else if status = 409 then "conflict"
  else if status = 429 then "rate_limit_error"
  else if status = 500 then "api_error"
  else "unknown_error"

/-- Embedding of the `MessagingInAppWebError` shape (utils/error.ts):
an `Error` carrying `statusCode`, `operation` and `type`. -/
structure MessagingInAppWebError where
  message : String
  statusCode : Nat
  operation : String
  type : String
  deriving Repr, DecidableEq

/-- Embedding of `createError` (utils/error.ts). -/
def createError (status : Nat) (operation : String) : MessagingInAppWebError :=
  { message := "Error in " ++ operation ++ ": " ++ toString status
    statusCode := status
    operation := operation
    type := getErrorTypeFromStatus status }

/-! ## services/TokenService.ts -/

/-- The `context` object of `TokenCreateParams`. -/
structure AppContext where
  appName : String
  clientVersion : String
  deriving Repr, DecidableEq

/-- Embedding of `TokenCreateParams` (services/TokenService.ts).  A field
holding `none` models the key being absent from the object; `some s`
models the key being present with string value `s` (so `'key' in params
&& typeof params.key === 'string'` is `isSome` of the field). -/
structure TokenCreateParams where
  capabilitiesVersion : Option String := none
  platform : Option String := none
  deviceId : Option String := none
  context : Option AppContext := none
  authorizationType : Option String := none
  customerIdentityToken : Option String := none
  deriving Repr, DecidableEq

/-- Embedding of `TokenService.isAuthenticatedTokenConfig`
(services/TokenService.ts): true when `params` is present and carries
both the `authorizationType` key and the `customerIdentityToken` key
with string values — the values are not inspected further. -/
def isAuthenticatedTokenConfig (params : Option TokenCreateParams) : Bool :=
  match params with
  | none => false
  | some p => p.authorizationType.isSome && p.customerIdentityToken.isSome

/-- The `tokenType` local of `TokenService.create`. -/
def tokenCreateType (params : Option TokenCreateParams) : String :=
  if isAuthenticatedTokenConfig params then "authenticated" else "unauthenticated"

/-- The URL that `TokenService.create` passes to `makeRequest`. -/
def tokenCreateUrl (baseUrl : String) (params : Option TokenCreateParams) : String :=
  baseUrl ++ "/iamessage/api/v2/authorization/" ++ tokenCreateType params ++ "/access-token"

/-! ## utils/request.ts -/

/-- The observable part of an outbound HTTP request issued through
`makeRequest` (url and method; headers and bodies are not needed by any
claim below). -/
structure HttpRequest where
  url : String
  method : String
  deriving Repr, DecidableEq

/-- Embedding of `RequestOptions` (utils/request.ts), restricted to the
fields `makeRequest` branches on. -/
structure RequestOptions where
  method : String
  timeout : Option Nat := none
  deriving Repr, DecidableEq

/-- How the underlying `fetch` call would settle if it is allowed to:
either an HTTP response with a status code, or a network-level failure. -/
inductive FetchOutcome where
  | response (status : Nat)
  | networkError (message : String)
  deriving Repr, DecidableEq

/-- The failures `makeRequest` can throw: the classified error built by
`createError` on a non-ok status, the distinct timeout error built in the
`AbortError` branch (carrying `type` and `operation`), or any other
transport failure rethrown as-is. -/
inductive RequestError where
  | apiError (e : MessagingInAppWebError)
  | timeoutError (message : String) (type : String) (operation : String)
  | transportError (message : String)
  deriving Repr, DecidableEq

/-- A successful `makeRequest` result: the raw response (`response.ok`
held, so the status is in the 2xx range). -/
structure FetchResponse where
  status : Nat
  deriving Repr, DecidableEq

/-- Whether the abort timer armed by `makeRequest` fires before the fetch
settles.  `timeoutId` is `null` when no timeout is configured — the source
runs `timeout ? setTimeout(() => controller.abort(), timeout) : null` — so
without a configured timeout the signal can never fire; with one, it fires
exactly when the fetch takes at least `timeout` milliseconds. -/
def timerFires (timeout : Option Nat) (durationMs : Nat) : Bool :=
  match timeout with
  | none => false
  | some t => t ≤ durationMs

/-- Embedding of `makeRequest` (utils/request.ts).  `durationMs` is how
long the fetch would take and `outcome` how it would settle; an abort
fired by the timer surfaces as `AbortError`, which the catch block maps
to the distinct timeout error.  A non-ok status is thrown as
`createError status operation` (its `name` is not `AbortError`, so the
catch block rethrows it unchanged), and any other failure is rethrown
unchanged. -/
def makeRequest (url : String) (options : RequestOptions) (operation : String)
    (durationMs : Nat) (outcome : FetchOutcome) : Except RequestError FetchResponse :=
  if timerFires options.timeout durationMs then
    Except.error (RequestError.timeoutError
      ("Request timeout for operation: " ++ operation) "timeout_error" operation)
  else
    match outcome with
    | FetchOutcome.response status =>
        if 200 ≤ status ∧ status < 300 then
          Except.ok { status := status }
        else
          Except.error (RequestError.apiError (createError status operation))
    | FetchOutcome.networkError msg =>
        Except.error (RequestError.transportError msg)

/-! ## services/ConversationService.ts -/

/-- The errors a `ConversationService` operation can surface: a
synchronous validation failure thrown before any network call, a failure
propagated from `makeRequest`, or a JavaScript `TypeError` from
dereferencing a missing array element of the wire response. -/
inductive ServiceError where
  | validation (message : String)
  | request (e : RequestError)
  | typeErr (message : String)
  deriving Repr, DecidableEq

/-- Embedding of `MessageParams` (services/ConversationService.ts). -/
structure MessageParams where
  text : String
  id : Option String := none
  isNewSession : Option Bool := none
  language : Option String := none
  deriving Repr, DecidableEq

/-- Embedding of the domain `ConversationEntry`
(services/ConversationService.ts): `text` is an optional field. -/
structure DomainSender where
  id : String
  type : String
  deriving Repr, DecidableEq

structure ConversationEntry where
  id : String
  type : String
  text : Option String := none
  timestamp : String
  sender : DomainSender
  deriving Repr, DecidableEq

/-- Embedding of the domain `ConversationStatus`
(services/ConversationService.ts). -/
structure ConversationStatus where
  id : String
  status : String
  lastActivityTimestamp : String
  isActive : Bool
  deriving Repr, DecidableEq

/-- Embedding of the domain `ConversationResponse`
(services/ConversationService.ts). -/
structure ConversationResponse where
  id : String
  entries : List ConversationEntry
  deriving Repr, DecidableEq

/-- Embedding of the wire sender object (types/api.ts). -/
structure WireSender where
  role : String
  subject : String
  appType : Option String := none
  clientIdentifier : Option String := none
  deriving Repr, DecidableEq

/-- Embedding of one element of `ConversationEntryResponse
.conversationEntries` (types/api.ts). -/
structure WireConversationEntry where
  entryType : String
  entryPayload : String
  transcriptedTimestamp : Nat
  sender : WireSender
  clientTimestamp : Nat
  identifier : String
  senderDisplayName : String
  deriving Repr, DecidableEq

/-- Embedding of `ConversationEntryResponse` (types/api.ts). -/
structure ConversationEntryResponse where
  conversationEntries : List WireConversationEntry
  deriving Repr, DecidableEq

/-- Embedding of one element of `MessageResponse.conversationEntries`
(types/api.ts). -/
structure WireMessageEntry where
  id : String
  clientTimestamp : Nat
  deriving Repr, DecidableEq

/-- Embedding of `MessageResponse` (types/api.ts). -/
structure MessageResponse where
  conversationEntries : List WireMessageEntry
  deriving Repr, DecidableEq

/-- Embedding of `ConversationRoutingStatusResponse` (types/api.ts). -/
structure ConversationRoutingStatusResponse where
  conversationId : String
  routingStatus : String
  deriving Repr, DecidableEq

/-- The `ConversationService` construction state
(services/ConversationService.ts); the logger is dropped from the
embedding. -/
structure ConversationService where
  baseUrl : String
  developerName : String
  orgId : String
  deriving Repr, DecidableEq

/-- Embedding of `ConversationService.sendMessage`.  The synchronous
guard `if (!params.text) throw new Error(...)` runs before `makeRequest`,
so on empty text no request is issued.  `genId` stands for
`randomUUID().toLowerCase()` and `exec` for the composition of
`makeRequest` with `response.json()` (its failures range over exactly
the errors `makeRequest` can throw).  The first component of the result
lists the network requests issued, in order. -/
def ConversationService.sendMessage (svc : ConversationService)
    (token conversationId : String) (params : MessageParams) (genId : String)
    (exec : HttpRequest → Except RequestError MessageResponse) :
    List HttpRequest × Except ServiceError ConversationEntry :=
  if params.text = "" then
    ([], Except.error (ServiceError.validation "Message text is required"))
  else
    let req : HttpRequest :=
      { url := svc.baseUrl ++ "/iamessage/api/v2/conversation/" ++ conversationId ++ "/message"
        method := "POST" }
    match exec req with
    | Except.error e => ([req], Except.error (ServiceError.request e))
    | Except.ok responseData =>
        match responseData.conversationEntries.head? with
        | none =>
            ([req], Except.error (ServiceError.typeErr "Cannot read properties of undefined"))
        | some entry =>
            ([req], Except.ok
              { id := entry.id
                type := "Message"
                text := some params.text
                timestamp := dateToISOString entry.clientTimestamp
                sender := { id := "user", type := "endUser" } })

/-- Embedding of `ConversationService.status`.  `nowMs` stands for the
current time read by `new Date().toISOString()`. -/
def ConversationService.status (svc : ConversationService)
    (token conversationId : String) (nowMs : Nat)
    (exec : HttpRequest → Except RequestError ConversationRoutingStatusResponse) :
    List HttpRequest × Except ServiceError ConversationStatus :=
  let req : HttpRequest :=
    { url := svc.baseUrl ++ "/iamessage/api/v2/conversation/" ++ conversationId
      method := "GET" }
  match exec req with
  | Except.error e => ([req], Except.error (ServiceError.request e))
  | Except.ok responseData =>
      ([req], Except.ok
        { id := conversationId
          status := responseData.routingStatus
          lastActivityTimestamp := dateToISOString nowMs
          isActive := true })

/-- Embedding of `ConversationService.transformListResponse`.  The
returned `id` is `response.conversationEntries[0]?.identifier || ''`;
every mapped entry is given a `text` field equal to its wire
`entryPayload`. -/
def ConversationService.transformListResponse
    (response : ConversationEntryResponse) : ConversationResponse :=
  { id :=
      match response.conversationEntries.head? with
      | none => ""
      | some e => jsOrString e.identifier ""
    entries := response.conversationEntries.map fun entry =>
      { id := entry.identifier
        type := entry.entryType
        text := some entry.entryPayload
        timestamp := dateToISOString entry.clientTimestamp
        sender := { id := entry.sender.subject, type := entry.sender.role } } }

/-- Embedding of `ConversationEntryListParams`
(services/ConversationService.ts). -/
structure ConversationEntryListParams where
  limit : Option Nat := none
  startTimestamp : Option String := none
  endTimestamp : Option String := none
  direction : Option String := none
  entryTypeFilter : Option (List String) := none
  deriving Repr, DecidableEq

/-- The query pairs `ConversationService.list` serializes: each optional
filter is included exactly when defined (percent-encoding by
`URLSearchParams` is not modelled; no claim depends on it). -/
def listQueryPairs (params : ConversationEntryListParams) : List (String × String) :=
  ([("limit", params.limit.map toString),
    ("startTimestamp", params.startTimestamp),
    ("endTimestamp", params.endTimestamp),
    ("direction", params.direction),
    ("entryTypeFilter", params.entryTypeFilter.map (String.intercalate ","))]
    : List (String × Option String)).filterMap
      fun p => p.2.map fun v => (p.1, v)

/-- Serialization of the query pairs into the query string appended to
the list URL. -/
def listQueryString (params : ConversationEntryListParams) : String :=
  String.intercalate "&" ((listQueryPairs params).map fun p => p.1 ++ "=" ++ p.2)

/-- Embedding of `ConversationService.list`: issues one GET to the
entries endpoint and normalizes the wire response through
`transformListResponse`. -/
def ConversationService.list (svc : ConversationService)
    (token conversationId : String) (params : ConversationEntryListParams)
    (exec : HttpRequest → Except RequestError ConversationEntryResponse) :
    List HttpRequest × Except ServiceError ConversationResponse :=
  let req : HttpRequest :=
    { url := svc.baseUrl ++ "/iamessage/api/v2/conversation/" ++ conversationId
        ++ "/entries?" ++ listQueryString params
      method := "GET" }
  match exec req with
  | Except.error e => ([req], Except.error (ServiceError.request e))
  | Except.ok responseData =>
      ([req], Except.ok (ConversationService.transformListResponse responseData))

/-! ## services/EventService.ts -/

/-- Embedding of `SSEOptions` (services/EventService.ts); the callbacks
are modelled by the stream machine below, so only the data field is
kept here. -/
structure SSEOptions where
  lastEventId : Option String := none
  deriving Repr, DecidableEq

/-- The `EventService` construction state (services/EventService.ts). -/
structure EventService where
  baseUrl : String
  orgId : String
  deriving Repr, DecidableEq

/-- The configuration `createEventSourceStream` passes to
`createEventSource`: producing it is the act of initiating a connection
attempt. -/
structure StreamConfig where
  url : String
  headers : List (String × String)
  deriving Repr, DecidableEq

/-- Embedding of `EventService.createEventSourceStream`
(services/EventService.ts): the guard `if (!token) throw new Error(...)`
runs synchronously before `createEventSource` is called, so on an empty
token no `StreamConfig` is built and no connection is attempted; the
`Last-Event-Id` header is attached via `options.lastEventId ? ... : ...`
(truthiness, so an empty cursor is not attached). -/
def EventService.createEventSourceStream (svc : EventService)
    (token : String) (options : SSEOptions) : Except String StreamConfig :=
  if token = "" then
    Except.error "Authentication token is required"
  else
    Except.ok
      { url := svc.baseUrl ++ "/eventrouter/v1/sse"
        headers :=
          [("Accept", "text/event-stream"),
           ("Authorization", "Bearer " ++ token),
           ("X-Org-Id", svc.orgId)]
          ++ (match options.lastEventId with
              | some cursor => if cursor = "" then [] else [("Last-Event-Id", cursor)]
              | none => []) }

/-! ### Stream connection lifecycle

The handlers wired by `createEventSourceStream` are `onConnect`
(invokes `options.onOpen`), `onDisconnect` (calls `eventSource.close()`
— the source comment reads `Preventing auto reconnect`), and `onMessage`
(forwards the frame to `options.onEvent`).  The machine below folds those
handlers over the transport events the connection observes. -/

/-- Lifecycle phase of one stream connection. -/
inductive StreamPhase where
  | connecting
  | opened
  | closed
  deriving Repr, DecidableEq

/-- Observable state of one stream connection: its phase, how many times
`close()` was called on the underlying connection, how many times
`options.onOpen` ran, and the frames delivered to `options.onEvent`. -/
structure StreamState where
  phase : StreamPhase
  closeCalls : Nat
  openInvocations : Nat
  delivered : List String
  deriving Repr, DecidableEq

/-- A transport-level occurrence on the connection. -/
inductive TransportEvent where
  | connect
  | disconnect
  | message (payload : String)
  deriving Repr, DecidableEq

/-- One step of the connection.  The `disconnect` arm is the embedding of
the source `onDisconnect` handler, which calls `eventSource.close()`.
Modelled from the spec: the eventsource-client connection is an external
collaborator; per the specification a closed connection is terminal — it
delivers no further callbacks and never reconnects — and `close()` is
idempotent, so the `closed` phase absorbs every event. -/
def stepStream (s : StreamState) (ev : TransportEvent) : StreamState :=
  match s.phase with
  | StreamPhase.closed => s
  | _ =>
      match ev with
      | TransportEvent.connect =>
          { s with phase := StreamPhase.opened, openInvocations := s.openInvocations + 1 }
      | TransportEvent.disconnect =>
          { s with phase := StreamPhase.closed, closeCalls := s.closeCalls + 1 }
      | TransportEvent.message payload =>
          { s with delivered := s.delivered ++ [payload] }

/-- The initial state of a freshly created connection. -/
def initialStreamState : StreamState :=
  { phase := StreamPhase.connecting, closeCalls := 0, openInvocations := 0, delivered := [] }

/-- Folding the handlers over a trace of transport events. -/
def runStream (events : List TransportEvent) : StreamState :=
  events.foldl stepStream initialStreamState

/-! ## MessagingInAppWeb.ts -/

/-- Embedding of `MessagingInAppWebConfig` (MessagingInAppWeb.ts): a
field holding `none` models the key being absent from the object, `some
s` models the key being present with value `s` (so the constructor check
`param in config` is `isSome`). -/
structure MessagingInAppWebConfig where
  baseUrl : Option String := none
  orgId : Option String := none
  developerName : Option String := none
  deriving Repr, DecidableEq

/-- The required configuration keys (MessagingInAppWeb.ts,
`REQUIRED_CONFIG`). -/
def REQUIRED_CONFIG : List String := ["baseUrl", "orgId", "developerName"]

/-- Whether `config` carries the given key (`'key' in config`). -/
def configHasKey (config : MessagingInAppWebConfig) (key : String) : Bool :=
  if key = "baseUrl" then config.baseUrl.isSome
  else if key = "orgId" then config.orgId.isSome
  else if key = "developerName" then config.developerName.isSome
  else false

/-- The state the constructor stores when validation passes. -/
structure ClientInit where
  baseUrl : String
  orgId : String
  developerName : String
  deriving Repr, DecidableEq

/-- Embedding of the `MessagingInAppWebClient` constructor
(MessagingInAppWeb.ts): throws `Missing client configuration.` when no
config object is supplied, then walks `REQUIRED_CONFIG` in order and
throws at the first key absent from the object; values are never
inspected, only key presence. -/
def MessagingInAppWebClient.construct (config : Option MessagingInAppWebConfig) :
    Except String ClientInit :=
  match config with
  | none => Except.error "Missing client configuration."
  | some c =>
      match REQUIRED_CONFIG.find? (fun param => !(configHasKey c param)) with
      | some param => Except.error ("Missing configuration parameter: " ++ param)
      | none =>
          Except.ok
            { baseUrl := c.baseUrl.getD ""
              orgId := c.orgId.getD ""
              developerName := c.developerName.getD "" }

/-! ## Theorems -/

/-- Claim C1, counterexample: a params object whose `authorizationType`
and `customerIdentityToken` are both present but empty targets the
authenticated path, where the claim requires the unauthenticated one. -/
theorem tokenCreate_emptyCredentials_authenticated :
    tokenCreateType (some { authorizationType := some "", customerIdentityToken := some "" })
      = "authenticated"
    ∧ tokenCreateType (some { authorizationType := some "", customerIdentityToken := some "" })
      ≠ "unauthenticated" := by
  refine ⟨rfl, ?_⟩
  decide

/-- Claim C1 (amended): `TokenService.create` targets the authenticated
issuance path exactly when the params object is supplied and carries both
the `authorizationType` key and the `customerIdentityToken` key with
string values; the values themselves (empty or not) are never
inspected. -/
theorem tokenCreate_path_classification :
    ∀ (params : Option TokenCreateParams),
      tokenCreateType params = "authenticated"
        ↔ ∃ p, params = some p
            ∧ p.authorizationType.isSome = true
            ∧ p.customerIdentityToken.isSome = true := by
  intro params
  cases params with
  | none => simp [tokenCreateType, isAuthenticatedTokenConfig]
  | some p =>
      by_cases ha : p.authorizationType.isSome = true <;>
        by_cases hc : p.customerIdentityToken.isSome = true <;>
          simp [tokenCreateType, isAuthenticatedTokenConfig, ha, hc]

/-- Claim C1, witness: the amended classification evaluated on a params
object carrying both credentials. -/
theorem tokenCreate_path_classification_witness :
    tokenCreateType (some { authorizationType := some "jwt", customerIdentityToken := some "t" })
      = "authenticated" :=
  (tokenCreate_path_classification
    (some { authorizationType := some "jwt", customerIdentityToken := some "t" })).mpr
    ⟨_, rfl, rfl, rfl⟩

/-- Claim C2: `sendMessage` issues zero network requests and rejects with
the validation error `Message text is required` exactly when the message
text is empty; on non-empty text that validation error never occurs. -/
theorem sendMessage_empty_text_validation :
    ∀ (svc : ConversationService) (token conversationId : String)
      (params : MessageParams) (genId : String)
      (exec : HttpRequest → Except RequestError MessageResponse),
      ((svc.sendMessage token conversationId params genId exec).1 = []
          ∧ (svc.sendMessage token conversationId params genId exec).2
              = Except.error (ServiceError.validation "Message text is required"))
        ↔ params.text = "" := by
  intro svc token conversationId params genId exec
  by_cases h : params.text = ""
  · simp [ConversationService.sendMessage, h]
  · simp only [ConversationService.sendMessage, if_neg h]
    cases hx : exec { url := svc.baseUrl ++ "/iamessage/api/v2/conversation/"
        ++ conversationId ++ "/message", method := "POST" } with
    | error e => simp [h]
    | ok responseData =>
        cases hr : responseData.conversationEntries.head? with
        | none => simp [hr, h]
        | some entry => simp [hr, h]

/-- Claim C2, witness: the equivalence evaluated at an empty-text and a
non-empty-text call. -/
theorem sendMessage_empty_text_validation_witness :
    ((ConversationService.sendMessage ⟨"https://x", "dev", "org"⟩ "tok" "conv"
        { text := "" } "gen" (fun _ => Except.error (RequestError.transportError "down"))).1 = []
      ∧ (ConversationService.sendMessage ⟨"https://x", "dev", "org"⟩ "tok" "conv"
          { text := "" } "gen" (fun _ => Except.error (RequestError.transportError "down"))).2
          = Except.error (ServiceError.validation "Message text is required"))
    ∧ ¬ (((ConversationService.sendMessage ⟨"https://x", "dev", "org"⟩ "tok" "conv"
        { text := "hi" } "gen" (fun _ => Except.error (RequestError.transportError "down"))).1 = [])
      ∧ (ConversationService.sendMessage ⟨"https://x", "dev", "org"⟩ "tok" "conv"
          { text := "hi" } "gen" (fun _ => Except.error (RequestError.transportError "down"))).2
          = Except.error (ServiceError.validation "Message text is required")) :=
  ⟨(sendMessage_empty_text_validation _ _ _ _ _ _).mpr rfl,
   fun hcontra => by
     have := (sendMessage_empty_text_validation ⟨"https://x", "dev", "org"⟩ "tok" "conv"
       { text := "hi" } "gen" (fun _ => Except.error (RequestError.transportError "down"))).mp hcontra
     exact absurd this (by decide)⟩

/-- Claim C3: the id returned by list normalization is the first wire
entry's identifier, an empty wire entry list yields exactly
`{id := "", entries := []}`, and the returned value is independent of the
`conversationId` request argument. -/
theorem list_id_from_first_wire_entry :
    ∀ (svc : ConversationService) (token cid cidOther : String)
      (params : ConversationEntryListParams) (wire : ConversationEntryResponse),
      (∀ e, wire.conversationEntries.head? = some e →
          (ConversationService.transformListResponse wire).id = e.identifier)
      ∧ (wire.conversationEntries = [] →
          ConversationService.transformListResponse wire = { id := "", entries := [] })
      ∧ (svc.list token cid params (fun _ => Except.ok wire)).2
          = (svc.list token cidOther params (fun _ => Except.ok wire)).2 := by
  intro svc token cid cidOther params wire
  refine ⟨?_, ?_, ?_⟩
  · intro e he
    by_cases h : e.identifier = "" <;>
      simp [ConversationService.transformListResponse, he, jsOrString, h]
  · intro he
    simp [ConversationService.transformListResponse, he]
  · simp [ConversationService.list]

/-- A sample wire entry used to evaluate the list-normalization
theorems. -/
def sampleWireEntry : WireConversationEntry :=
  { entryType := "Message"
    entryPayload := "hello"
    transcriptedTimestamp := 5
    sender := { role := "EndUser", subject := "u1" }
    clientTimestamp := 4
    identifier := "entry-1"
    senderDisplayName := "User" }

/-- Claim C3, witness: the first-entry rule and the empty rule evaluated
on concrete wire responses. -/
theorem list_id_from_first_wire_entry_witness :
    (ConversationService.transformListResponse ⟨[sampleWireEntry]⟩).id = "entry-1"
    ∧ ConversationService.transformListResponse ⟨[]⟩ = { id := "", entries := [] } :=
  ⟨(list_id_from_first_wire_entry ⟨"https://x", "dev", "org"⟩ "tok" "c1" "c2" {}
      ⟨[sampleWireEntry]⟩).1 sampleWireEntry rfl,
   (list_id_from_first_wire_entry ⟨"https://x", "dev", "org"⟩ "tok" "c1" "c2" {}
      ⟨[]⟩).2.1 rfl⟩

/-- Claim C4: the status→category table is exactly as specified, every
status outside the seven listed ones maps to `unknown_error`, and the
constructed error carries the status code, the operation and the
category. -/
theorem errorClassifier_table :
    ∀ (status : Nat) (operation : String),
      getErrorTypeFromStatus 400 = "invalid_request"
      ∧ getErrorTypeFromStatus 401 = "authentication_error"
      ∧ getErrorTypeFromStatus 403 = "permission_error"
      ∧ getErrorTypeFromStatus 404 = "not_found"
      ∧ getErrorTypeFromStatus 409 = "conflict"
      ∧ getErrorTypeFromStatus 429 = "rate_limit_error"
      ∧ getErrorTypeFromStatus 500 = "api_error"
      ∧ getErrorTypeFromStatus 418 = "unknown_error"
      ∧ (status ∉ ([400, 401, 403, 404, 409, 429, 500] : List Nat) →
          getErrorTypeFromStatus status = "unknown_error")
      ∧ (createError status operation).statusCode = status
      ∧ (createError status operation).operation = operation
      ∧ (createError status operation).type = getErrorTypeFromStatus status := by
  intro status operation
  refine ⟨rfl, rfl, rfl, rfl, rfl, rfl, rfl, rfl, ?_, rfl, rfl, rfl⟩
  intro h
  simp only [List.mem_cons, List.mem_singleton, not_or] at h
  obtain ⟨h1, h2, h3, h4, h5, h6, h7, _⟩ := h
  simp [getErrorTypeFromStatus, h1, h2, h3, h4, h5, h6, h7]

/-- Claim C4, witness: the classifier evaluated at the boundary status
418, which is outside the table. -/
theorem errorClassifier_table_witness :
    getErrorTypeFromStatus 418 = "unknown_error"
    ∧ (createError 418 "conversations.list_entries").type = "unknown_error" := by
  have h := errorClassifier_table 418 "conversations.list_entries"
  exact ⟨h.2.2.2.2.2.2.2.2.1 (by decide), h.2.2.2.2.2.2.2.2.2.2.2⟩

/-- Once a connection is closed, folding any further transport events
leaves its state unchanged. -/
theorem foldl_stepStream_closed :
    ∀ (events : List TransportEvent) (s : StreamState),
      s.phase = StreamPhase.closed → events.foldl stepStream s = s := by
  intro events
  induction events with
  | nil => intro s _; rfl
  | cons ev rest ih =>
      intro s hs
      have hstep : stepStream s ev = s := by simp [stepStream, hs]
      rw [List.foldl_cons, hstep]
      exact ih s hs

/-- A trace without a disconnect never closes the connection and never
calls `close()`. -/
theorem foldl_stepStream_no_disconnect :
    ∀ (events : List TransportEvent) (s : StreamState),
      TransportEvent.disconnect ∉ events → s.phase ≠ StreamPhase.closed →
      (events.foldl stepStream s).phase ≠ StreamPhase.closed
      ∧ (events.foldl stepStream s).closeCalls = s.closeCalls := by
  intro events
  induction events with
  | nil => intro s _ hs; exact ⟨hs, rfl⟩
  | cons ev rest ih =>
      intro s h hs
      simp only [List.mem_cons, not_or] at h
      obtain ⟨hev, hrest⟩ := h
      have hstep : (stepStream s ev).phase ≠ StreamPhase.closed
          ∧ (stepStream s ev).closeCalls = s.closeCalls := by
        cases hp : s.phase with
        | closed => exact absurd hp hs
        | connecting =>
            cases ev with
            | connect => simp [stepStream, hp]
            | disconnect => exact absurd rfl hev
            | message payload => simp [stepStream, hp]
        | opened =>
            cases ev with
            | connect => simp [stepStream, hp]
            | disconnect => exact absurd rfl hev
            | message payload => simp [stepStream, hp]
      rw [List.foldl_cons]
      have hrec := ih (stepStream s ev) (by simpa using hrest) hstep.1
      exact ⟨hrec.1, hrec.2.trans hstep.2⟩

/-- A disconnect observed on a not-yet-closed connection runs the source
`onDisconnect` handler: the connection is closed and `close()` is called
once more. -/
theorem stepStream_disconnect :
    ∀ (s : StreamState), s.phase ≠ StreamPhase.closed →
      stepStream s TransportEvent.disconnect
        = { s with phase := StreamPhase.closed, closeCalls := s.closeCalls + 1 } := by
  intro s hs
  cases hp : s.phase with
  | closed => exact absurd hp hs
  | connecting => simp [stepStream, hp]
  | opened => simp [stepStream, hp]

/-- Claim C5: on the first transport disconnect the controller calls
`close()` on the underlying connection exactly once, the connection ends
closed, and afterwards no frame is delivered to `onEvent` and no further
`onOpen` runs (no reconnect). -/
theorem stream_disconnect_no_reconnect :
    ∀ (pre post : List TransportEvent),
      TransportEvent.disconnect ∉ pre →
      (runStream (pre ++ TransportEvent.disconnect :: post)).closeCalls = 1
      ∧ (runStream (pre ++ TransportEvent.disconnect :: post)).delivered
          = (runStream pre).delivered
      ∧ (runStream (pre ++ TransportEvent.disconnect :: post)).phase = StreamPhase.closed
      ∧ (runStream (pre ++ TransportEvent.disconnect :: post)).openInvocations
          = (runStream pre).openInvocations := by
  intro pre post hpre
  have hinit : initialStreamState.phase ≠ StreamPhase.closed := by decide
  have hpre2 := foldl_stepStream_no_disconnect pre initialStreamState hpre hinit
  have hrun : runStream (pre ++ TransportEvent.disconnect :: post)
      = post.foldl stepStream (stepStream (runStream pre) TransportEvent.disconnect) := by
    simp [runStream, List.foldl_append]
  rw [hrun, stepStream_disconnect (runStream pre) hpre2.1,
    foldl_stepStream_closed post _ rfl]
  refine ⟨?_, rfl, rfl, rfl⟩
  show (runStream pre).closeCalls + 1 = 1
  have h0 : (runStream pre).closeCalls = 0 := hpre2.2
  rw [h0]

/-- Claim C5, witness: a concrete trace with activity before and a frame
after the disconnect. -/
theorem stream_disconnect_no_reconnect_witness :
    (runStream ([TransportEvent.connect, TransportEvent.message "a"]
        ++ TransportEvent.disconnect :: [TransportEvent.message "b"])).closeCalls = 1
    ∧ (runStream ([TransportEvent.connect, TransportEvent.message "a"]
        ++ TransportEvent.disconnect :: [TransportEvent.message "b"])).delivered
        = (runStream [TransportEvent.connect, TransportEvent.message "a"]).delivered
    ∧ (runStream ([TransportEvent.connect, TransportEvent.message "a"]
        ++ TransportEvent.disconnect :: [TransportEvent.message "b"])).phase
        = StreamPhase.closed
    ∧ (runStream ([TransportEvent.connect, TransportEvent.message "a"]
        ++ TransportEvent.disconnect :: [TransportEvent.message "b"])).openInvocations
        = (runStream [TransportEvent.connect, TransportEvent.message "a"]).openInvocations :=
  stream_disconnect_no_reconnect
    [TransportEvent.connect, TransportEvent.message "a"]
    [TransportEvent.message "b"] (by decide)

/-- Claim C6: `createEventSourceStream` fails with the synchronous
validation error `Authentication token is required` exactly when the
token is empty — in that case no `StreamConfig` is built, so no
connection is attempted and `onOpen` can never run — and on a non-empty
token it returns a connection configuration. -/
theorem createStream_empty_token_validation :
    ∀ (svc : EventService) (token : String) (options : SSEOptions),
      (svc.createEventSourceStream token options
          = Except.error "Authentication token is required" ↔ token = "")
      ∧ (token ≠ "" →
          ∃ cfg, svc.createEventSourceStream token options = Except.ok cfg) := by
  intro svc token options
  by_cases h : token = ""
  · exact ⟨by simp [EventService.createEventSourceStream, h],
      fun hne => absurd h hne⟩
  · refine ⟨by simp [EventService.createEventSourceStream, h], fun _ => ?_⟩
    simp [EventService.createEventSourceStream, h]

/-- Claim C6, witness: the empty-token call rejects and a non-empty-token
call yields a configuration. -/
theorem createStream_empty_token_validation_witness :
    (EventService.createEventSourceStream ⟨"https://x", "org"⟩ "" {}
        = Except.error "Authentication token is required")
    ∧ ∃ cfg, EventService.createEventSourceStream ⟨"https://x", "org"⟩ "tok" {}
        = Except.ok cfg :=
  ⟨(createStream_empty_token_validation ⟨"https://x", "org"⟩ "" {}).1.mpr rfl,
   (createStream_empty_token_validation ⟨"https://x", "org"⟩ "tok" {}).2 (by decide)⟩

/-- Claim C7: a successful `status` call returns the request argument as
`id`, the wire `routingStatus` as `status`, `isActive = true` always, and
a `lastActivityTimestamp` synthesized from the current clock rather than
read from the wire response (the same value for every wire response). -/
theorem status_synthesized_fields :
    ∀ (svc : ConversationService) (token conversationId : String) (nowMs : Nat)
      (wire : ConversationRoutingStatusResponse)
      (exec : HttpRequest → Except RequestError ConversationRoutingStatusResponse),
      exec { url := svc.baseUrl ++ "/iamessage/api/v2/conversation/" ++ conversationId
             method := "GET" } = Except.ok wire →
      (svc.status token conversationId nowMs exec).2
        = Except.ok
            { id := conversationId
              status := wire.routingStatus
              lastActivityTimestamp := dateToISOString nowMs
              isActive := true } := by
  intro svc token conversationId nowMs wire exec hexec
  simp [ConversationService.status, hexec]

/-- Claim C7, witness: the status call evaluated on a concrete wire
response. -/
theorem status_synthesized_fields_witness :
    ((ConversationService.status ⟨"https://x", "dev", "org"⟩ "tok" "conv-1" 42
        (fun _ => Except.ok ⟨"conv-1", "ROUTED"⟩)).2
      = Except.ok
          { id := "conv-1"
            status := "ROUTED"
            lastActivityTimestamp := dateToISOString 42
            isActive := true }) :=
  status_synthesized_fields ⟨"https://x", "dev", "org"⟩ "tok" "conv-1" 42
    ⟨"conv-1", "ROUTED"⟩ (fun _ => Except.ok ⟨"conv-1", "ROUTED"⟩) rfl

/-- Claim C8: when the configured timeout elapses before the fetch
settles, `makeRequest` fails with the distinct timeout error carrying
`type = "timeout_error"` and the operation name — by construction not a
classified status error nor a transport error — and when no timeout is
configured the abort signal can never fire. -/
theorem makeRequest_timeout_distinct :
    ∀ (url : String) (options : RequestOptions) (operation : String)
      (durationMs : Nat) (outcome : FetchOutcome),
      (timerFires options.timeout durationMs = true →
        makeRequest url options operation durationMs outcome
          = Except.error (RequestError.timeoutError
              ("Request timeout for operation: " ++ operation) "timeout_error" operation))
      ∧ (options.timeout = none → timerFires options.timeout durationMs = false) := by
  intro url options operation durationMs outcome
  constructor
  · intro h
    simp [makeRequest, h]
  · intro h
    simp [timerFires, h]

/-- Claim C8, witness: a request with a 5ms timeout whose fetch takes
10ms times out distinctly, and a request without a timeout never arms the
abort timer. -/
theorem makeRequest_timeout_distinct_witness :
    (makeRequest "https://x" { method := "GET", timeout := some 5 }
        "conversations.send_message" 10 (FetchOutcome.response 200)
      = Except.error (RequestError.timeoutError
          ("Request timeout for operation: " ++ "conversations.send_message")
          "timeout_error" "conversations.send_message"))
    ∧ timerFires (RequestOptions.timeout { method := "GET" }) 1000000 = false :=
  ⟨(makeRequest_timeout_distinct "https://x" { method := "GET", timeout := some 5 }
      "conversations.send_message" 10 (FetchOutcome.response 200)).1 (by decide),
   (makeRequest_timeout_distinct "https://x" { method := "GET" }
      "conversations.send_message" 1000000 (FetchOutcome.response 200)).2 rfl⟩

/-- A wire list response whose single entry is not a message. -/
def nonMessageWire : ConversationEntryResponse :=
  { conversationEntries :=
      [{ entryType := "ParticipantChanged"
         entryPayload := "joined"
         transcriptedTimestamp := 2
         sender := { role := "Agent", subject := "a1" }
         clientTimestamp := 1
         identifier := "entry-9"
         senderDisplayName := "Agent A" }] }

/-- Claim C9, counterexample: list normalization gives a
`ParticipantChanged` (non-message) entry a present `text` field, so the
claimed invariant that `text` is present only for message-type entries
fails on the code. -/
theorem list_nonMessage_entry_carries_text :
    ((ConversationService.transformListResponse nonMessageWire).entries.map
        fun e => (e.type, e.text))
      = [("ParticipantChanged", some "joined")]
    ∧ ("ParticipantChanged" : String) ≠ "Message" := by
  refine ⟨rfl, ?_⟩
  decide

/-- Claim C9 (amended): every domain entry produced by list
normalization copies `id`, `type` verbatim from some wire entry and
carries a `text` field equal to that wire entry's `entryPayload`
regardless of entry type (so `id`/`type` are non-empty exactly when the
wire values are); every entry produced by a successful `sendMessage` has
type `Message` and a `text` equal to the validated, non-empty message
text. -/
theorem normalized_entry_fields :
    ∀ (wire : ConversationEntryResponse) (e : ConversationEntry),
      (e ∈ (ConversationService.transformListResponse wire).entries →
          ∃ w ∈ wire.conversationEntries,
            e.id = w.identifier ∧ e.type = w.entryType ∧ e.text = some w.entryPayload)
      ∧ ∀ (svc : ConversationService) (token conversationId : String)
          (params : MessageParams) (genId : String)
          (exec : HttpRequest → Except RequestError MessageResponse)
          (entry : ConversationEntry),
          (svc.sendMessage token conversationId params genId exec).2 = Except.ok entry →
          entry.type = "Message" ∧ entry.text = some params.text ∧ params.text ≠ "" := by
  intro wire e
  constructor
  · intro hmem
    simp only [ConversationService.transformListResponse, List.mem_map] at hmem
    obtain ⟨w, hw, rfl⟩ := hmem
    exact ⟨w, hw, rfl, rfl, rfl⟩
  · intro svc token conversationId params genId exec entry hok
    by_cases h : params.text = ""
    · simp [ConversationService.sendMessage, h] at hok
    · have h2 := hok
      simp only [ConversationService.sendMessage, if_neg h] at h2
      cases hx : exec { url := svc.baseUrl ++ "/iamessage/api/v2/conversation/"
          ++ conversationId ++ "/message", method := "POST" } with
      | error e2 =>
          rw [hx] at h2
          simp at h2
      | ok responseData =>
          rw [hx] at h2
          cases hr : responseData.conversationEntries.head? with
          | none =>
              simp [hr] at h2
          | some wentry =>
              simp [hr] at h2
              subst h2
              exact ⟨rfl, rfl, h⟩

/-- The network oracle for the sendMessage witness below. -/
def sampleSendExec : HttpRequest → Except RequestError MessageResponse :=
  fun _ => Except.ok { conversationEntries := [{ id := "m1", clientTimestamp := 7 }] }

/-- The entry the sendMessage witness below produces. -/
def sampleSentEntry : ConversationEntry :=
  { id := "m1"
    type := "Message"
    text := some "Hello world"
    timestamp := dateToISOString 7
    sender := { id := "user", type := "endUser" } }

/-- Claim C9, witness: the amended property evaluated on a successful
concrete `sendMessage` call. -/
theorem normalized_entry_fields_witness :
    sampleSentEntry.type = "Message"
    ∧ sampleSentEntry.text = some "Hello world"
    ∧ ("Hello world" : String) ≠ "" :=
  (normalized_entry_fields ⟨[]⟩ sampleSentEntry).2
    ⟨"https://x", "dev", "org"⟩ "tok" "conv" { text := "Hello world" } "gen"
    sampleSendExec sampleSentEntry rfl

/-- Claim C10: the client constructor succeeds exactly when a config
object is supplied carrying the keys `baseUrl`, `orgId` and
`developerName` — values are never inspected, so present-but-empty
strings are accepted — and a missing config object is rejected with the
dedicated message. -/
theorem constructor_presence_only :
    ∀ (config : Option MessagingInAppWebConfig),
      ((∃ init, MessagingInAppWebClient.construct config = Except.ok init)
        ↔ ∃ c, config = some c ∧ c.baseUrl.isSome = true ∧ c.orgId.isSome = true
            ∧ c.developerName.isSome = true)
      ∧ (config = none →
          MessagingInAppWebClient.construct config
            = Except.error "Missing client configuration.") := by
  intro config
  cases config with
  | none =>
      refine ⟨?_, fun _ => rfl⟩
      simp [MessagingInAppWebClient.construct]
  | some c =>
      refine ⟨?_, by simp⟩
      by_cases h1 : c.baseUrl.isSome = true <;>
        by_cases h2 : c.orgId.isSome = true <;>
          by_cases h3 : c.developerName.isSome = true <;>
            simp [MessagingInAppWebClient.construct, REQUIRED_CONFIG, configHasKey,
              List.find?, h1, h2, h3]

/-- Claim C10, witness: a config whose required keys are present but
bound to empty strings is accepted. -/
theorem constructor_presence_only_witness :
    ∃ init, MessagingInAppWebClient.construct
        (some { baseUrl := some "", orgId := some "", developerName := some "" })
      = Except.ok init :=
  (constructor_presence_only
      (some { baseUrl := some "", orgId := some "", developerName := some "" })).1.mpr
    ⟨_, rfl, rfl, rfl, rfl⟩

end Miaw
